import Mathlib

/-!
Shallow embedding of `twistory.py` (jschauma/twistory), a script that fetches a
user timeline page by page and prints the posts that fall in an id range.

Modelling conventions:
  * Post ids and the `-a` / `-b` bounds are `Int`, with `-1` as the unset
    sentinel, exactly as in the source (`__init__` defaults).
  * The remote API is modelled as the list of pages that successive
    `apicall(...)` invocations return; the t.co redirect service is a function
    from code to optional `Location` header (which the program, it turns out,
    never consults).
  * The program runs under Python 3 (shebang `python3.10`; `http.client`
    exists only there).  In the retained-post branch,
    `status.text.encode("UTF-8")` yields `bytes`, and `tco_re.finditer(msg)`
    at line 148 applies a str-pattern regex to that bytes object, which
    raises TypeError at once, before any lookup, substitution, lineify or
    print.  The model represents this: the retained branch raises (a `true`
    flag), the rest of the page is abandoned, and the generic
    `except Exception` clause logs the error via `verbose`.
  * Output is a list of (channel, line) pairs: `print` writes to stdout,
    `Twistory.verbose` writes to stderr.
-/

def EXIT_ERROR : Nat := 1

def EXIT_SUCCESS : Nat := 0

/-- Embedding of the TWITTER_RESPONSE_STATUS dictionary of the source. -/
def TWITTER_RESPONSE_STATUS (k : String) : Nat :=
  if k = "OK" then 200
  else if k = "NotModified" then 304
  else if k = "RateLimited" then 400
  else if k = "Unauthorized" then 401
  else if k = "Forbidden" then 403
  else if k = "NotFound" then 404
  else if k = "NotAcceptable" then 406
  else if k = "SearchRateLimited" then 420
  else if k = "Broken" then 500
  else if k = "Down" then 502
  else if k = "FailWhale" then 503
  else 0

/-- Output channels of the process. -/
inductive Chan where
  | stdout
  | stderr
deriving DecidableEq

/-- A post as delivered by the timeline API: id, text, timestamp. -/
structure Status where
  id : Int
  text : String
  created_at : String
deriving DecidableEq

/-- The option dictionary of the `Twistory` object, plus its verbosity
counter.  Field defaults are the `__init__` defaults of the source. -/
structure Opts where
  after : Int := -1
  before : Int := -1
  lineify : Bool := false
  retweets : Bool := false
  user : String := ""
  verbosity : Nat := 0
deriving DecidableEq

/-- The option state right after `Twistory.__init__`. -/
def optsInit : Opts := {}

/-- The t.co redirect service: maps a shortener code to the optional
`Location` response header of `GET /code`.  `none` models both a missing
header and a failed lookup. -/
def Resolver : Type := List Char → Option (List Char)

/-- Embedding of the `Twistory.verbose` method: writes to stderr when the
verbosity `v` is at least `level`, prefixing the line with `level` copies
of the equals sign. -/
def verboseOut (v : Nat) (level : Nat) (msg : String) : List (Chan × String) :=
  if level ≤ v then
    [(Chan.stderr, String.mk (List.replicate level ('=')) ++ "> " ++ msg)]
  else []

/-- The message of the TypeError that line 148 raises when the str-pattern
regex is applied to the bytes msg. -/
def typeErrorMsg : String := "cannot use a string pattern on a bytes-like object"

/-! ### The displayTimeline page loop -/

/-- The mutable loop state of `displayTimeline`: the (possibly resolved)
`before` bound, the cursor `lastid` (absent until the first post is
processed), the `loop` flag and the iteration counter. -/
structure Core where
  before : Int
  lastid : Option Int
  loop : Bool
  count : Int
deriving DecidableEq

/-- Everything one piece of the run emits: tagged output lines, the posts
processed by the for loop (`seen`), the posts whose formatted line reached
stdout (`printed` — which stays empty, since the print at line 160 is
unreachable), the number of page requests made (`pages`), and the number
of TypeErrors swallowed by the generic except clause (`raised`). -/
structure Emit where
  out : List (Chan × String) := []
  seen : List Status := []
  printed : List Status := []
  pages : Nat := 0
  raised : Nat := 0
deriving DecidableEq

/-- The empty emission. -/
def emitNil : Emit := {}

/-- Concatenation of emissions, in program order. -/
def Emit.append (a b : Emit) : Emit :=
  { out := a.out ++ b.out
    seen := a.seen ++ b.seen
    printed := a.printed ++ b.printed
    pages := a.pages + b.pages
    raised := a.raised + b.raised }

/-- Python truthiness check `not lastid`: true for `None` and for `0`. -/
def lastidFalsy : Option Int → Bool
  | none => true
  | some v => v = 0

/-- The body of the inner `for status in pageitems` loop for one status:
set the cursor, resolve `before` if it is the `-1` sentinel, stop the
whole loop when the id is strictly below `after`, otherwise bump the
counter.  When `before > id > after` (a retained post), line 147 binds
`msg` to the bytes `status.text.encode("UTF-8")` and line 148 applies the
str-pattern `tco_re` to it: under Python 3 this raises TypeError before
the unwrap loop, the lineify call and the print — the third component
`true` records the escaped exception.  The resolver `r` stands for the
t.co service the unreachable lookup would use. -/
def stepItem (o : Opts) (r : Resolver) (s : Status) (st : Core) : Core × Emit × Bool :=
  let st1 : Core := { st with lastid := some (s.id - 1) }
  let e1 := verboseOut o.verbosity 2 ("Iterating (" ++ toString st1.count ++ ")...")
  let st2 : Core := if st1.before = -1 then { st1 with before := s.id + 1 } else st1
  if s.id < o.after then
    ({ st2 with loop := false },
      { out := e1 ++ verboseOut o.verbosity 2 ("Tweet earlier than threshold, breaking out.")
        seen := [s] },
      false)
  else
    let st3 : Core := { st2 with count := st2.count + 1 }
    let e2 := verboseOut o.verbosity 4
      ("Before: " ++ toString st2.before ++ "; Status: " ++ toString s.id ++
        "; After: " ++ toString o.after ++ ", lastid: " ++ toString (s.id - 1))
    if st2.before > s.id ∧ s.id > o.after then
      (st3, { out := e1 ++ e2, seen := [s] }, true)
    else
      (st3, { out := e1 ++ e2, seen := [s] }, false)

/-- The inner for loop over the statuses of one page.  A status whose
retained branch raises TypeError abandons the rest of the page (control
jumps to the except clause); a status that sets `loop := false` breaks out
normally.  The third component reports whether a TypeError escaped. -/
def processItems (o : Opts) (r : Resolver) : List Status → Core → Core × Emit × Bool
  | [], st => (st, emitNil, false)
  | s :: rest, st =>
    let p := stepItem o r s st
    if p.2.2 = true then p
    else if p.1.loop = false then p
    else
      let q := processItems o r rest p.1
      (q.1, Emit.append p.2.1 q.2.1, q.2.2)

/-- The `while loop` of `displayTimeline`, driven by the successive pages
the API returns.  Each iteration makes one page request, prints the user
name to stdout, breaks on an empty page, runs the for loop; a TypeError
thrown by the for loop lands in the generic `except Exception` clause,
which logs it via `verbose` at level 1; after the try block the loop goes
on only when `loop` is still set and the cursor is truthy. -/
def runPages (o : Opts) (r : Resolver) : List (List Status) → Core → Core × Emit
  | [], st => (st, emitNil)
  | page :: rest, st =>
    if st.loop = false then (st, emitNil)
    else
      let e0 : Emit := { out := [(Chan.stdout, o.user)], pages := 1 }
      match page with
      | [] => (st, e0)
      | s :: ss =>
        let p := processItems o r (s :: ss) st
        let eh : Emit :=
          if p.2.2 = true then
            { out := verboseOut o.verbosity 1 typeErrorMsg, raised := 1 }
          else emitNil
        if p.1.loop ∧ ¬ lastidFalsy p.1.lastid then
          let q := runPages o r rest p.1
          (q.1, Emit.append e0 (Emit.append p.2.1 (Emit.append eh q.2)))
        else
          (p.1, Emit.append e0 (Emit.append p.2.1 eh))

/-- Embedding of `Twistory.displayTimeline`: the initial verbose line, the
initial loop state (`before` and `after` read from the options, no cursor,
`count = 1`), then the page loop. -/
def displayTimeline (o : Opts) (r : Resolver) (pages : List (List Status)) : Core × Emit :=
  let st0 : Core := { before := o.before, lastid := none, loop := true, count := 1 }
  let e0 : Emit := { out := verboseOut o.verbosity 1 ("Fetching tweets...") }
  let p := runPages o r pages st0
  (p.1, Emit.append e0 p.2)

/-- Lines written to stdout, in order. -/
def stdoutLines (e : Emit) : List String :=
  (e.out.filter (fun p => match p.1 with | Chan.stdout => true | Chan.stderr => false)).map Prod.snd

/-- Lines written to stderr, in order. -/
def stderrLines (e : Emit) : List String :=
  (e.out.filter (fun p => match p.1 with | Chan.stdout => false | Chan.stderr => true)).map Prod.snd

/-- A resolver for which every lookup fails. -/
def noResolver : Resolver := fun _ => none

/-! ### The exception clauses of the page loop

The `try` block of `displayTimeline` is followed, in source order, by
`except Exception` (line 161), `except http.client.IncompleteRead`
(line 163) and `except tweepy.error.TweepError` (line 166).  Python
selects the FIRST clause whose class is a superclass of the raised
exception. -/

/-- Kinds of exception that can escape the `try` block of the page loop.
`excGeneric` stands for any other subclass of `Exception`. -/
inductive ExcType where
  | excGeneric
  | excIncompleteRead
  | excTweepError
deriving DecidableEq

/-- The classes named by the three `except` clauses. -/
inductive ClauseClass where
  | catchException
  | catchIncompleteRead
  | catchTweepError
deriving DecidableEq

/-- Subclass test: `IncompleteRead` and `TweepError` (and every other
modelled exception) are subclasses of `Exception`; otherwise only the
matching dedicated class catches. -/
def isSubclass (e : ExcType) (c : ClauseClass) : Bool :=
  match e, c with
  | _, ClauseClass.catchException => true
  | ExcType.excIncompleteRead, ClauseClass.catchIncompleteRead => true
  | ExcType.excTweepError, ClauseClass.catchTweepError => true
  | _, _ => false

/-- The `except` clauses in their source order (lines 161, 163, 166). -/
def exceptClauses : List ClauseClass :=
  [ClauseClass.catchException, ClauseClass.catchIncompleteRead, ClauseClass.catchTweepError]

/-- Index of the clause Python selects for a raised exception. -/
def selectClause (e : ExcType) : Option Nat :=
  exceptClauses.findIdx? (fun c => isSubclass e c)

/-- What the body of each `except` clause does. -/
inductive HandlerAction where
  | logOnly
  | sleepRetry (secs : Nat)
  | tweepDispatch
deriving DecidableEq

/-- The body of the clause at each index: the generic clause only calls
`self.verbose(e)`; the `IncompleteRead` clause sleeps 5 seconds; the
`TweepError` clause calls `handleTweepError` and may break the loop. -/
def clauseAction : Nat → Option HandlerAction
  | 0 => some HandlerAction.logOnly
  | 1 => some (HandlerAction.sleepRetry 5)
  | 2 => some HandlerAction.tweepDispatch
  | _ => none

/-- The action actually performed for a raised exception. -/
def dispatchAction (e : ExcType) : Option HandlerAction :=
  (selectClause e).bind clauseAction

/-- The output of the generic `except Exception` clause, which is a plain
`self.verbose(e)` call at the default level 1. -/
def genericHandlerOut (v : Nat) (msg : String) : List (Chan × String) :=
  verboseOut v 1 msg

/-! ### handleTweepError -/

/-- The `rate_limit_status()` answer used by `handleTweepError`. -/
structure RateLimit where
  reset_time : String
  reset_time_in_seconds : Int
  remaining_hits : Int
deriving DecidableEq

/-- A TweepError value: `response` is `none` when the error has no
`response` attribute, `some none` when the response has no `status`
attribute, `some (some code)` otherwise. -/
structure TweepErr where
  response : Option (Option Nat)
  reason : String
deriving DecidableEq

/-- Result of `handleTweepError`: the Python return value (`None`, `True`
or `False`), the slept duration if any, and the stderr lines written. -/
structure HTEResult where
  retval : Option Bool
  slept : Option Int
  errLines : List String
deriving DecidableEq

/-- The common tail of `handleTweepError`: write `info` and `errmsg` to
stderr; when `diff` is truthy, add the safety margin of 2 seconds, sleep,
and return `True`; otherwise return `False`. -/
def hteFinish (info errmsg : String) (diff : Int) : HTEResult :=
  if diff ≠ 0 then
    { retval := some true
      slept := some (diff + 2)
      errLines := [info, errmsg, "Sleeping for " ++ toString (diff + 2) ++ " seconds..."] }
  else
    { retval := some false, slept := none, errLines := [info, errmsg] }

/-- Embedding of `Twistory.handleTweepError`.  `lookupRL` is the result of
the `rate_limit_status()` call (`none` when that call itself raises, in
which case the handler returns `None` silently); `now` is `time.time()`.
Timestamps inside messages are elided. -/
def handleTweepError (lookupRL : Option RateLimit) (e : TweepErr) (info : String)
    (now : Int) : HTEResult :=
  match lookupRL with
  | none => { retval := none, slept := none, errLines := [] }
  | some rl =>
    match e.response with
    | none => hteFinish info e.reason 0
    | some none => hteFinish info ("") 0
    | some (some status) =>
      if status = TWITTER_RESPONSE_STATUS ("FailWhale") then
        hteFinish info ("Twitter FailWhale-d on me.") 0
      else if status = TWITTER_RESPONSE_STATUS ("Broken") then
        hteFinish info ("Twitter is busted again.") 0
      else if status = TWITTER_RESPONSE_STATUS ("RateLimited") ∨
          status = TWITTER_RESPONSE_STATUS ("SearchRateLimited") then
        let errmsg := "Rate limited until " ++ rl.reset_time ++ "."
        let diff := rl.reset_time_in_seconds - now
        if rl.remaining_hits > 0 then
          { retval := none, slept := none, errLines := [] }
        else
          hteFinish info errmsg diff
      else
        hteFinish info ("Twitter told me something went wrong.") 0

/-- The caller side `if not self.handleTweepError(...): break`: the loop
goes on only when the handler returned `True`. -/
def tweepCallerContinues (h : HTEResult) : Bool :=
  h.retval = some true

/-! ### Option parsing: getopt, parseOptions and the main dispatch -/

/-- The short option string `"a:b:hlru:v"` given to `getopt.getopt`. -/
def shortopts : List Char := "a:b:hlru:v".data

/-- The CPython `short_has_arg` scan: find the option letter in the option
string (a letter position, not a colon) and report whether a colon
follows; an unknown letter is a GetoptError (`none`). -/
def hasArgIn : List Char → Char → Option Bool
  | [], _ => none
  | c :: rest, o =>
    if c = o ∧ c ≠ ':' then
      some (match rest with | ':' :: _ => true | _ => false)
    else hasArgIn rest o

/-- The CPython `do_shorts` loop over one clustered option argument: each
letter either takes the rest of the cluster (or the next argument) as its
option argument, or is recorded with an empty argument. -/
def doShorts (acc : List (String × String)) :
    List Char → List String → Option (List (String × String) × List String)
  | [], args => some (acc, args)
  | c :: rest, args =>
    match hasArgIn shortopts c with
    | none => none
    | some true =>
      match rest with
      | [] =>
        match args with
        | [] => none
        | a :: args2 => some (acc ++ [(String.mk ['-', c], a)], args2)
      | r1 :: rs => some (acc ++ [(String.mk ['-', c], String.mk (r1 :: rs))], args)
    | some false => doShorts (acc ++ [(String.mk ['-', c], "")]) rest args

/-- True when the argument starts with a dash. -/
def startsDash (a : String) : Bool :=
  match a.data with
  | '-' :: _ => true
  | _ => false

/-- Fuel-indexed main loop of `getopt.getopt`: stop at the first
non-option argument or at a bare dash, consume a lone `--`, else process
one cluster.  The fuel is the argument count, which bounds the recursion
since every iteration consumes at least the cluster argument. -/
def getoptAux (acc : List (String × String)) :
    Nat → List String → Option (List (String × String) × List String)
  | _, [] => some (acc, [])
  | 0, args => some (acc, args)
  | fuel + 1, a :: rest =>
    if startsDash a = false ∨ a = "-" then some (acc, a :: rest)
    else if a = "--" then some (acc, rest)
    else
      match doShorts acc (a.data.drop 1) rest with
      | none => none
      | some (acc2, rest2) => getoptAux acc2 fuel rest2

/-- Embedding of `getopt.getopt(inargs, "a:b:hlru:v")`; `none` is a raised
GetoptError. -/
def getopt (args : List String) : Option (List (String × String) × List String) :=
  getoptAux [] args.length args

/-- Space characters recognised when parsing an int argument. -/
def isSpaceChar (c : Char) : Bool :=
  (c = ' ') || (c = '\t') || (c = '\n') || (c = '\r')

/-- Decimal digit test. -/
def isDigitChar (c : Char) : Bool :=
  ('0' ≤ c) && (c ≤ '9')

/-- Value of a list of decimal digits. -/
def digitsVal (l : List Char) : Nat :=
  l.foldl (fun n c => n * 10 + (c.toNat - ('0').toNat)) 0

/-- Strip surrounding whitespace. -/
def trimChars (l : List Char) : List Char :=
  ((l.dropWhile isSpaceChar).reverse.dropWhile isSpaceChar).reverse

/-- Model of the Python built-in `int()` on strings: surrounding
whitespace, an optional sign, then nonempty decimal digits; anything else
raises ValueError (`none`).  (Digit-group underscores and non-ASCII digits
of the real builtin are not modelled; no claim depends on them.) -/
def pyInt (a : String) : Option Int :=
  match trimChars a.data with
  | '-' :: ds => if ds ≠ [] ∧ ds.all isDigitChar then some (-(digitsVal ds : Int)) else none
  | '+' :: ds => if ds ≠ [] ∧ ds.all isDigitChar then some ((digitsVal ds : Int)) else none
  | ds => if ds ≠ [] ∧ ds.all isDigitChar then some ((digitsVal ds : Int)) else none

/-- Result of the option-processing loop of `parseOptions`: a raised
`Usage` with its return value, a `sys.exit(EXIT_ERROR)` after a ValueError
on an int argument, or the updated options. -/
inductive PRes where
  | usageRes (rval : Nat)
  | invalidRes (flag arg : String)
  | doneRes (cfg : Opts)
deriving DecidableEq

/-- The `for o, a in opts` loop of `parseOptions`.  (The source tests
`o in ("-a")`, a substring test against a one-string tuple; for the
two-character option names getopt produces, it is equality.) -/
def processOpts : List (String × String) → Opts → PRes
  | [], o => PRes.doneRes o
  | (flag, a) :: rest, o =>
    if flag = "-a" then
      match pyInt a with
      | none => PRes.invalidRes flag a
      | some n => processOpts rest { o with after := n }
    else if flag = "-b" then
      match pyInt a with
      | none => PRes.invalidRes flag a
      | some n => processOpts rest { o with before := n }
    else if flag = "-h" then PRes.usageRes EXIT_SUCCESS
    else if flag = "-l" then processOpts rest { o with lineify := true }
    else if flag = "-r" then processOpts rest { o with retweets := true }
    else if flag = "-u" then processOpts rest { o with user := a }
    else if flag = "-v" then processOpts rest { o with verbosity := o.verbosity + 1 }
    else processOpts rest o

/-- Overall outcome of `parseOptions` as observed by `__main__`. -/
inductive ParseOutcome where
  | usageOut (rval : Nat)
  | exitOut (code : Nat)
  | okOut (cfg : Opts)
deriving DecidableEq

/-- Embedding of `Twistory.parseOptions`: a GetoptError raises
`Usage(EXIT_ERROR)`; after the loop, a missing `-u` or leftover positional
arguments raise `Usage(EXIT_ERROR)`. -/
def parseOptions (args : List String) : ParseOutcome :=
  match getopt args with
  | none => ParseOutcome.usageOut EXIT_ERROR
  | some (opts, rest) =>
    match processOpts opts optsInit with
    | PRes.usageRes r => ParseOutcome.usageOut r
    | PRes.invalidRes _ _ => ParseOutcome.exitOut EXIT_ERROR
    | PRes.doneRes cfg =>
      if cfg.user = "" ∨ rest ≠ [] then ParseOutcome.usageOut EXIT_ERROR
      else ParseOutcome.okOut cfg

/-- The channel `__main__` writes the usage message to: stderr when the
`Usage` return value is `EXIT_ERROR`, stdout otherwise. -/
def usageChannel (rval : Nat) : Chan :=
  if rval = EXIT_ERROR then Chan.stderr else Chan.stdout

/-- The exit code of the process after a `Usage` exception. -/
def usageExitCode (rval : Nat) : Nat := rval

/-! ### Concrete fixtures used by the example theorems -/

/-- A status with the given id and fixed text and timestamp. -/
def exStatus (n : Int) : Status :=
  { id := n, text := "hello", created_at := "May 01" }

/-- Options of the spec example: after 100, before 200. -/
def exOpts1 : Opts :=
  { after := 100, before := 200, user := "user" }

/-- Pages of the spec example: one page with ids 199, 150, 99; a further
page that must never be requested. -/
def exPages1 : List (List Status) :=
  [[exStatus 199, exStatus 150, exStatus 99], [exStatus 50]]

/-- Options with every bound left unset and user jdoe. -/
def exOptsU : Opts := { user := "jdoe" }

/-- Two pages: one with a single post, then the empty page that ends the
pagination. -/
def exPagesU : List (List Status) :=
  [[{ id := 5, text := "hi", created_at := "ts" }], []]

/-- A resolver that resolves exactly the code `ab`. -/
def exResolver : Resolver := fun c =>
  if c = ['a', 'b'] then some ("http://example.com/target".data) else none

/-- Options with the lineify flag set (the `-l` flag), bounds 100/200. -/
def exOptsL : Opts :=
  { after := 100, before := 200, lineify := true, user := "user" }

/-- A retained post whose text holds a literal newline. -/
def exStatusNl : Status :=
  { id := 199, text := "a\nb", created_at := "May 01" }

/-- Pages for the lineify scenario: the newline post, then an older page. -/
def exPagesL : List (List Status) :=
  [[exStatusNl], [exStatus 50]]

/-- A retained post whose text holds a resolvable t.co link. -/
def exStatusT : Status :=
  { id := 199, text := "see http://t.co/ab", created_at := "May 01" }

/-- Pages for the unwrap scenario: the link post, then an older page. -/
def exPagesT : List (List Status) :=
  [[exStatusT], [exStatus 50]]

/-! ## Helper lemmas -/

theorem stepItem_before (o : Opts) (r : Resolver) (s : Status) (st : Core) :
    ((stepItem o r s st).1).before = if st.before = -1 then s.id + 1 else st.before := by
  simp only [stepItem]
  split
  · split <;> rfl
  · split
    · split <;> rfl
    · split <;> rfl

theorem stepItem_before_ne (o : Opts) (r : Resolver) (s : Status) (st : Core)
    (h : st.before ≠ -1) : ((stepItem o r s st).1).before = st.before := by
  rw [stepItem_before, if_neg h]

theorem processItems_before_ne (o : Opts) (r : Resolver) :
    ∀ (items : List Status) (st : Core), st.before ≠ -1 →
      ((processItems o r items st).1).before = st.before := by
  intro items
  induction items with
  | nil => intro st h; simp [processItems]
  | cons s rest ih =>
    intro st h
    simp only [processItems]
    split
    · exact stepItem_before_ne o r s st h
    · split
      · exact stepItem_before_ne o r s st h
      · rw [ih _ (by rw [stepItem_before_ne o r s st h]; exact h)]
        exact stepItem_before_ne o r s st h

theorem runPages_before_ne (o : Opts) (r : Resolver) :
    ∀ (pages : List (List Status)) (st : Core), st.before ≠ -1 →
      ((runPages o r pages st).1).before = st.before := by
  intro pages
  induction pages with
  | nil => intro st h; simp [runPages]
  | cons page rest ih =>
    intro st h
    simp only [runPages]
    split
    · rfl
    · match page with
      | [] => rfl
      | s :: ss =>
        simp only []
        split
        · rw [ih _ (by rw [processItems_before_ne o r _ st h]; exact h)]
          exact processItems_before_ne o r _ st h
        · exact processItems_before_ne o r _ st h

theorem processItems_before_start (o : Opts) (r : Resolver) (s : Status) (ss : List Status)
    (st : Core) (h : st.before = -1) (hid : s.id + 1 ≠ -1) :
    ((processItems o r (s :: ss) st).1).before = s.id + 1 := by
  have h1 : ((stepItem o r s st).1).before = s.id + 1 := by rw [stepItem_before, if_pos h]
  simp only [processItems]
  split
  · exact h1
  · split
    · exact h1
    · rw [processItems_before_ne o r ss _ (by rw [h1]; exact hid)]
      exact h1

theorem stepItem_printed_nil (o : Opts) (r : Resolver) (s : Status) (st : Core) :
    (stepItem o r s st).2.1.printed = [] := by
  simp only [stepItem]
  split
  · rfl
  · split <;> split <;> rfl

theorem processItems_printed_nil (o : Opts) (r : Resolver) :
    ∀ (items : List Status) (st : Core), (processItems o r items st).2.1.printed = [] := by
  intro items
  induction items with
  | nil => intro st; rfl
  | cons s rest ih =>
    intro st
    simp only [processItems]
    split
    · exact stepItem_printed_nil o r s st
    · split
      · exact stepItem_printed_nil o r s st
      · simp [Emit.append, stepItem_printed_nil, ih]

theorem runPages_printed_nil (o : Opts) (r : Resolver) :
    ∀ (pages : List (List Status)) (st : Core), (runPages o r pages st).2.printed = [] := by
  intro pages
  induction pages with
  | nil => intro st; rfl
  | cons page rest ih =>
    intro st
    cases page with
    | nil =>
      simp only [runPages]
      split <;> rfl
    | cons s ss =>
      simp only [runPages]
      split
      · rfl
      · split
        · split
          · simp [Emit.append, processItems_printed_nil, ih]
          · simp [Emit.append, processItems_printed_nil, ih, emitNil]
        · split
          · simp [Emit.append, processItems_printed_nil]
          · simp [Emit.append, processItems_printed_nil, emitNil]

theorem displayTimeline_printed_nil (o : Opts) (r : Resolver) (pages : List (List Status)) :
    (displayTimeline o r pages).2.printed = [] := by
  have h := runPages_printed_nil o r pages
    { before := o.before, lastid := none, loop := true, count := 1 }
  simp only [displayTimeline, Emit.append]
  simpa using h

theorem stdoutLines_append (a b : Emit) :
    stdoutLines (Emit.append a b) = stdoutLines a ++ stdoutLines b := by
  simp [stdoutLines, Emit.append, List.filter_append]

theorem verboseOut_stdout_filter (v l : Nat) (m : String) :
    (verboseOut v l m).filter
      (fun p => match p.1 with | Chan.stdout => true | Chan.stderr => false) = [] := by
  simp only [verboseOut]
  split <;> simp

theorem stepItem_pages (o : Opts) (r : Resolver) (s : Status) (st : Core) :
    (stepItem o r s st).2.1.pages = 0 := by
  simp only [stepItem]
  split
  · rfl
  · split <;> split <;> rfl

theorem processItems_pages (o : Opts) (r : Resolver) :
    ∀ (items : List Status) (st : Core), (processItems o r items st).2.1.pages = 0 := by
  intro items
  induction items with
  | nil => intro st; rfl
  | cons s rest ih =>
    intro st
    simp only [processItems]
    split
    · exact stepItem_pages o r s st
    · split
      · exact stepItem_pages o r s st
      · simp [Emit.append, stepItem_pages, ih]

theorem stepItem_stdout_nil (o : Opts) (r : Resolver) (s : Status) (st : Core) :
    stdoutLines (stepItem o r s st).2.1 = [] := by
  simp only [stepItem]
  split
  · simp [stdoutLines, List.filter_append, verboseOut_stdout_filter]
  · split <;> split <;> simp [stdoutLines, List.filter_append, verboseOut_stdout_filter]

theorem processItems_stdout_nil (o : Opts) (r : Resolver) :
    ∀ (items : List Status) (st : Core), stdoutLines (processItems o r items st).2.1 = [] := by
  intro items
  induction items with
  | nil => intro st; simp [processItems, emitNil, stdoutLines]
  | cons s rest ih =>
    intro st
    simp only [processItems]
    split
    · exact stepItem_stdout_nil o r s st
    · split
      · exact stepItem_stdout_nil o r s st
      · simp [stdoutLines_append, stepItem_stdout_nil o r s st, ih]

theorem replicate_user_succ (n : Nat) (u : String) :
    u :: List.replicate n u = List.replicate (1 + n) u := by
  rw [Nat.add_comm, List.replicate_succ]

theorem runPages_stdout_replicate (o : Opts) (r : Resolver) :
    ∀ (pages : List (List Status)) (st : Core),
      stdoutLines (runPages o r pages st).2 =
        List.replicate (runPages o r pages st).2.pages o.user := by
  intro pages
  induction pages with
  | nil => intro st; simp [runPages, emitNil, stdoutLines]
  | cons page rest ih =>
    intro st
    cases page with
    | nil =>
      simp only [runPages]
      split
      · simp [emitNil, stdoutLines]
      · simp [stdoutLines, List.replicate]
    | cons s ss =>
      simp only [runPages]
      split
      · simp [emitNil, stdoutLines]
      · split
        · split
          · rw [stdoutLines_append, stdoutLines_append, stdoutLines_append,
              processItems_stdout_nil, ih,
              show stdoutLines
                  ({ out := verboseOut o.verbosity 1 typeErrorMsg, raised := 1 } : Emit) = []
                from by simp [stdoutLines, verboseOut_stdout_filter]]
            simp [stdoutLines, Emit.append, processItems_pages, replicate_user_succ]
          · rw [stdoutLines_append, stdoutLines_append, stdoutLines_append,
              processItems_stdout_nil, ih,
              show stdoutLines emitNil = [] from rfl]
            simp [stdoutLines, Emit.append, processItems_pages, emitNil, replicate_user_succ]
        · split
          · rw [stdoutLines_append, stdoutLines_append, processItems_stdout_nil,
              show stdoutLines
                  ({ out := verboseOut o.verbosity 1 typeErrorMsg, raised := 1 } : Emit) = []
                from by simp [stdoutLines, verboseOut_stdout_filter]]
            simp [stdoutLines, Emit.append, processItems_pages, List.replicate]
          · rw [stdoutLines_append, stdoutLines_append, processItems_stdout_nil,
              show stdoutLines emitNil = [] from rfl]
            simp [stdoutLines, Emit.append, processItems_pages, emitNil, List.replicate]

theorem processItems_r_indep (o : Opts) (r r2 : Resolver) :
    ∀ (items : List Status) (st : Core),
      processItems o r items st = processItems o r2 items st := by
  intro items
  induction items with
  | nil => intro st; rfl
  | cons s rest ih =>
    intro st
    have hs : stepItem o r2 s st = stepItem o r s st := rfl
    simp only [processItems]
    rw [hs, ← ih ((stepItem o r s st).1)]

theorem runPages_r_indep (o : Opts) (r r2 : Resolver) :
    ∀ (pages : List (List Status)) (st : Core),
      runPages o r pages st = runPages o r2 pages st := by
  intro pages
  induction pages with
  | nil => intro st; rfl
  | cons page rest ih =>
    intro st
    cases page with
    | nil => rfl
    | cons s ss =>
      have hp : processItems o r2 (s :: ss) st = processItems o r (s :: ss) st :=
        (processItems_r_indep o r r2 (s :: ss) st).symm
      simp only [runPages]
      rw [hp, ← ih ((processItems o r (s :: ss) st).1)]

/-! ## Claim theorems -/

/-- C1 is a code bug: the retained-post branch never prints.  Under
Python 3 the bytes msg of line 147 makes `tco_re.finditer(msg)` at line
148 raise TypeError, the clause at line 161 swallows it, and the rest of
the page is skipped while pagination goes on.  No run ever prints a post,
and in the claimed example (after 100, before 200, page 199/150/99) the
posts 199 and 150 do NOT print: post 199 raises, 150 and 99 are never
reached, and a second page request is made. -/
theorem c1_retained_post_type_error :
    (∀ (o : Opts) (r : Resolver) (pages : List (List Status)),
      (displayTimeline o r pages).2.printed = []) ∧
    ((displayTimeline exOpts1 noResolver exPages1).2.printed = [] ∧
      (displayTimeline exOpts1 noResolver exPages1).2.seen.map Status.id = [199, 50] ∧
      (displayTimeline exOpts1 noResolver exPages1).2.pages = 2 ∧
      (displayTimeline exOpts1 noResolver exPages1).2.raised = 1) :=
  ⟨displayTimeline_printed_nil, by decide, by decide, by decide, by decide⟩

/-- C2 counterexample: the claim says a post with id equal to `after`
stops the whole fetch immediately.  It does not: the code stops only on
`status.id < after`, so with after 100 a first page holding exactly the
post 100 leaves the loop running and a second page request is made
(two pages fetched, not at most one). -/
theorem c2_counterexample :
    ¬ (∀ (a b : Int) (p : Status) (rest : List (List Status)) (r : Resolver),
        p.id ≤ a →
        (displayTimeline { after := a, before := b, user := "u" } r ([p] :: rest)).2.pages ≤ 1) := by
  intro hcl
  have h := hcl 100 200 (exStatus 100) [[exStatus 99]] noResolver (by decide)
  exact absurd h (by decide)

/-- C2 corrected: a post with id strictly below `after` stops the entire
fetch at once (the rest of its page is ignored and a stopped state makes
no further page request), and no post with id at or below `after` is ever
printed; but a post with id equal to `after` is merely skipped and does
not stop pagination. -/
theorem c2_stop_strictly_below_after :
    (∀ (o : Opts) (r : Resolver) (pages : List (List Status)) (s : Status),
      s ∈ (displayTimeline o r pages).2.printed → o.after < s.id) ∧
    (∀ (o : Opts) (r : Resolver) (s : Status) (rest : List Status) (st : Core),
      s.id < o.after →
      processItems o r (s :: rest) st = processItems o r [s] st ∧
      (processItems o r (s :: rest) st).1.loop = false) ∧
    (∀ (o : Opts) (r : Resolver) (pages : List (List Status)) (st : Core),
      st.loop = false → runPages o r pages st = (st, emitNil)) := by
  refine ⟨?_, ?_, ?_⟩
  · intro o r pages s hs
    rw [displayTimeline_printed_nil] at hs
    exact absurd hs (List.not_mem_nil s)
  · intro o r s rest st hlt
    have hstop : (stepItem o r s st).1.loop = false := by
      simp only [stepItem]
      rw [if_pos hlt]
    have hnr : (stepItem o r s st).2.2 = false := by
      simp only [stepItem]
      rw [if_pos hlt]
    constructor
    · simp only [processItems]
      rw [hnr, hstop]
      simp
    · simp only [processItems]
      rw [hnr, hstop]
      simp [hstop]
  · intro o r pages st h
    cases pages with
    | nil => simp [runPages]
    | cons page rest => simp [runPages, h]

/-- Witness for C2 at concrete inputs: a post below the bound stops the
page scan no matter what follows it. -/
theorem c2_witness :
    processItems exOpts1 noResolver [exStatus 50, exStatus 40]
        { before := 200, lastid := none, loop := true, count := 1 } =
      processItems exOpts1 noResolver [exStatus 50]
        { before := 200, lastid := none, loop := true, count := 1 } ∧
    (processItems exOpts1 noResolver [exStatus 50, exStatus 40]
        { before := 200, lastid := none, loop := true, count := 1 }).1.loop = false :=
  c2_stop_strictly_below_after.2.1 exOpts1 noResolver (exStatus 50) [exStatus 40]
    { before := 200, lastid := none, loop := true, count := 1 } (by decide)

/-- C3: when `before` is the unset sentinel, the first post seen in the
run resolves it to that post's id plus one, and the resolved value is
still in place at the end of the whole run; moreover a step never changes
an already-resolved `before`. -/
theorem c3_before_resolved_once :
    (∀ (o : Opts) (r : Resolver) (s : Status) (ss : List Status) (rest : List (List Status)),
      o.before = -1 → 0 ≤ s.id →
      ((displayTimeline o r ((s :: ss) :: rest)).1).before = s.id + 1) ∧
    (∀ (o : Opts) (r : Resolver) (x : Status) (st : Core), st.before ≠ -1 →
      ((stepItem o r x st).1).before = st.before) := by
  constructor
  · intro o r s ss rest h hid
    have hne : s.id + 1 ≠ -1 := by omega
    have h0 : ({ before := o.before, lastid := none, loop := true, count := 1 } : Core).before = -1 := h
    simp only [displayTimeline]
    show ((runPages o r ((s :: ss) :: rest)
      { before := o.before, lastid := none, loop := true, count := 1 }).1).before = s.id + 1
    simp only [runPages]
    rw [if_neg (by simp)]
    split
    · rw [runPages_before_ne o r rest _
        (by rw [processItems_before_start o r s ss _ h0 hne]; exact hne)]
      exact processItems_before_start o r s ss _ h0 hne
    · exact processItems_before_start o r s ss _ h0 hne
  · intro o r x st h
    exact stepItem_before_ne o r x st h

/-- Witness for C3 at concrete inputs. -/
theorem c3_witness :
    ((displayTimeline exOptsU noResolver exPagesU).1).before = (5 : Int) + 1 :=
  c3_before_resolved_once.1 exOptsU noResolver
    { id := 5, text := "hi", created_at := "ts" } [] [[]] (by decide) (by decide)

/-- C7 is a code bug: the lineify call at line 159 is unreachable.  For a
retained post the TypeError at line 148 is raised first (and the bytes
msg would make `replace` with str arguments raise anyway), so with the
`-l` flag set and a newline-bearing retained post nothing is printed at
all: stdout carries only the page-request user lines, the error is
swallowed, and no one-line rendering of the post ever exists. -/
theorem c7_lineify_never_runs :
    exOptsL.lineify = true ∧
    (displayTimeline exOptsL noResolver exPagesL).2.printed = [] ∧
    (displayTimeline exOptsL noResolver exPagesL).2.raised = 1 ∧
    stdoutLines (displayTimeline exOptsL noResolver exPagesL).2 = ["user", "user"] :=
  ⟨by decide, by decide, by decide, by decide⟩

/-- Helper for C8: an opts list containing `-h` never completes the
processing loop normally: either the `-h` branch raises `Usage(0)`, or an
earlier int argument raises ValueError first. -/
theorem processOpts_mem_h :
    ∀ (opts : List (String × String)) (o : Opts) (a : String),
      ("-h", a) ∈ opts →
      processOpts opts o = PRes.usageRes EXIT_SUCCESS ∨
      ∃ f b, processOpts opts o = PRes.invalidRes f b := by
  intro opts
  induction opts with
  | nil =>
    intro o a h
    exact absurd h (List.not_mem_nil _)
  | cons hd tl ih =>
    intro o a h
    obtain ⟨f, b⟩ := hd
    rcases List.mem_cons.mp h with heq | hmem
    · obtain ⟨hf, _⟩ := Prod.mk.injEq .. ▸ heq.symm
      subst hf
      left
      simp only [processOpts]
      rw [if_neg (by decide), if_neg (by decide)]
      simp
    · simp only [processOpts]
      by_cases h1 : f = "-a"
      · rw [if_pos h1]
        cases hpi : pyInt b with
        | none => exact Or.inr ⟨f, b, rfl⟩
        | some n => exact ih _ a hmem
      · rw [if_neg h1]
        by_cases h2 : f = "-b"
        · rw [if_pos h2]
          cases hpi : pyInt b with
          | none => exact Or.inr ⟨f, b, rfl⟩
          | some n => exact ih _ a hmem
        · rw [if_neg h2]
          by_cases h3 : f = "-h"
          · rw [if_pos h3]
            exact Or.inl rfl
          · rw [if_neg h3]
            by_cases h4 : f = "-l"
            · rw [if_pos h4]; exact ih _ a hmem
            · rw [if_neg h4]
              by_cases h5 : f = "-r"
              · rw [if_pos h5]; exact ih _ a hmem
              · rw [if_neg h5]
                by_cases h6 : f = "-u"
                · rw [if_pos h6]; exact ih _ a hmem
                · rw [if_neg h6]
                  by_cases h7 : f = "-v"
                  · rw [if_pos h7]; exact ih _ a hmem
                  · rw [if_neg h7]; exact ih _ a hmem

/-- C8: a GetoptError (unknown flag or missing option argument), a missing
`-u`, or leftover positional arguments give `Usage(EXIT_ERROR)`; a
processed `-h` gives `Usage(EXIT_SUCCESS)` (unless an earlier bad int
argument exits first); `__main__` writes the usage message of a
`Usage(EXIT_ERROR)` to stderr and exits 1, and that of a
`Usage(EXIT_SUCCESS)` to stdout and exits 0.  Concrete instances of each
trigger are included. -/
theorem c8_usage_message_and_exit_codes :
    (∀ args : List String, getopt args = none →
      parseOptions args = ParseOutcome.usageOut EXIT_ERROR) ∧
    (∀ (args : List String) (opts : List (String × String)) (rest : List String) (cfg : Opts),
      getopt args = some (opts, rest) → processOpts opts optsInit = PRes.doneRes cfg →
      cfg.user = "" → parseOptions args = ParseOutcome.usageOut EXIT_ERROR) ∧
    (∀ (args : List String) (opts : List (String × String)) (rest : List String) (cfg : Opts),
      getopt args = some (opts, rest) → processOpts opts optsInit = PRes.doneRes cfg →
      rest ≠ [] → parseOptions args = ParseOutcome.usageOut EXIT_ERROR) ∧
    (∀ (opts : List (String × String)) (o : Opts) (a : String),
      ("-h", a) ∈ opts →
      processOpts opts o = PRes.usageRes EXIT_SUCCESS ∨
      ∃ f b, processOpts opts o = PRes.invalidRes f b) ∧
    (usageChannel EXIT_ERROR = Chan.stderr ∧ usageChannel EXIT_SUCCESS = Chan.stdout ∧
      usageExitCode EXIT_ERROR = 1 ∧ usageExitCode EXIT_SUCCESS = 0) ∧
    (parseOptions ["-x"] = ParseOutcome.usageOut EXIT_ERROR ∧
      parseOptions ["-h"] = ParseOutcome.usageOut EXIT_SUCCESS ∧
      parseOptions ["-u", "bob", "extra"] = ParseOutcome.usageOut EXIT_ERROR ∧
      parseOptions ["-v"] = ParseOutcome.usageOut EXIT_ERROR ∧
      parseOptions ["-u"] = ParseOutcome.usageOut EXIT_ERROR) := by
  refine ⟨?_, ?_, ?_, processOpts_mem_h, by decide, by decide⟩
  · intro args h
    simp [parseOptions, h]
  · intro args opts rest cfg h1 h2 h3
    simp [parseOptions, h1, h2, h3]
  · intro args opts rest cfg h1 h2 h3
    simp [parseOptions, h1, h2, h3]

/-- Witness for C8 at concrete inputs. -/
theorem c8_witness :
    parseOptions ["-u", ""] = ParseOutcome.usageOut EXIT_ERROR ∧
    (processOpts [("-h", "")] optsInit = PRes.usageRes EXIT_SUCCESS ∨
      ∃ f b, processOpts [("-h", "")] optsInit = PRes.invalidRes f b) :=
  ⟨c8_usage_message_and_exit_codes.2.1 ["-u", ""] [("-u", "")] [] optsInit
      (by decide) (by decide) (by decide),
    c8_usage_message_and_exit_codes.2.2.2.1 [("-h", "")] optsInit ("") (by decide)⟩

/-- C10: every exception raised inside the page-fetch try block is caught
by the first, generic `except Exception` clause (index 0), whose only
action is a verbose log that is silent below verbosity 1; the dedicated
IncompleteRead and TweepError clauses are never selected, so no raised
error leads to a sleep, a retry, or the TweepError classifier. -/
theorem c10_generic_clause_shadows_all :
    ∀ (e : ExcType) (v : Nat) (m : String),
      selectClause e = some 0 ∧
      dispatchAction e = some HandlerAction.logOnly ∧
      (∀ n : Nat, dispatchAction e ≠ some (HandlerAction.sleepRetry n)) ∧
      dispatchAction e ≠ some HandlerAction.tweepDispatch ∧
      (genericHandlerOut v m = [] ↔ v = 0) := by
  intro e v m
  refine ⟨by cases e <;> decide, by cases e <;> decide, ?_, ?_, ?_⟩
  · intro n hn
    cases e <;> simp [dispatchAction, selectClause, exceptClauses, isSubclass,
      List.findIdx?, clauseAction] at hn
  · intro hn
    cases e <;> simp [dispatchAction, selectClause, exceptClauses, isSubclass,
      List.findIdx?, clauseAction] at hn
  · simp only [genericHandlerOut, verboseOut]
    constructor
    · intro hv
      by_cases h1 : 1 ≤ v
      · rw [if_pos h1] at hv
        exact absurd hv (by simp)
      · omega
    · intro hv
      subst hv
      rw [if_neg (by omega)]

/-- C4 is a code bug: an IncompleteRead raised by the page fetch is
dispatched to the generic clause (index 0, log only); the dedicated clause
at index 1, whose body sleeps 5 seconds and retries, is never selected,
so the documented wait-and-retry never happens. -/
theorem c4_incomplete_read_not_retried :
    selectClause ExcType.excIncompleteRead = some 0 ∧
    dispatchAction ExcType.excIncompleteRead = some HandlerAction.logOnly ∧
    clauseAction 1 = some (HandlerAction.sleepRetry 5) ∧
    HandlerAction.logOnly ≠ HandlerAction.sleepRetry 5 := by
  decide

/-- C5 is a code bug: a TweepError is also dispatched to the generic
clause, so `handleTweepError` never runs; and even taken on its own,
`handleTweepError` returns `None` on the false-alarm path (remaining quota
positive), which makes the caller break the fetch loop instead of
continuing.  The real-limit path does compute a 12 second sleep for a
reset 10 seconds away and returns `True` (retry), as the claim says. -/
theorem c5_rate_limit_handler_dead_and_breaks :
    selectClause ExcType.excTweepError = some 0 ∧
    dispatchAction ExcType.excTweepError = some HandlerAction.logOnly ∧
    (handleTweepError
        (some { reset_time := "rt", reset_time_in_seconds := 110, remaining_hits := 5 })
        { response := some (some 400), reason := "" } "info" 100).retval = none ∧
    tweepCallerContinues (handleTweepError
        (some { reset_time := "rt", reset_time_in_seconds := 110, remaining_hits := 5 })
        { response := some (some 400), reason := "" } "info" 100) = false ∧
    (handleTweepError
        (some { reset_time := "rt", reset_time_in_seconds := 110, remaining_hits := 0 })
        { response := some (some 400), reason := "" } "info" 100).slept = some 12 ∧
    (handleTweepError
        (some { reset_time := "rt", reset_time_in_seconds := 110, remaining_hits := 0 })
        { response := some (some 400), reason := "" } "info" 100).retval = some true := by
  decide

/-- C9 counterexample: the user-naming line is printed once per page
request, not once per run: a run that needs two page requests (one post,
then the terminating empty page) writes the user line to stdout twice. -/
theorem c9_counterexample :
    (stdoutLines (displayTimeline exOptsU noResolver exPagesU).2).count ("jdoe") = 2 ∧
    (2 : Nat) ≠ 1 := by
  constructor
  · decide
  · decide

/-- C9 corrected: stdout carries nothing but the user-naming line, once
per page request — the retained-post branch raises TypeError before the
print at line 160, so no formatted post line is ever written; and
everything the `verbose` method writes is tagged for stderr. -/
theorem c9_stdout_user_lines_only :
    (∀ (o : Opts) (r : Resolver) (pages : List (List Status)),
      stdoutLines (displayTimeline o r pages).2 =
        List.replicate (displayTimeline o r pages).2.pages o.user) ∧
    (∀ (v l : Nat) (m : String) (p : Chan × String),
      p ∈ verboseOut v l m → p.1 = Chan.stderr) := by
  constructor
  · intro o r pages
    simp only [displayTimeline]
    rw [stdoutLines_append]
    have h0 : stdoutLines
        { out := verboseOut o.verbosity 1 ("Fetching tweets...") } = [] := by
      simp [stdoutLines, verboseOut_stdout_filter]
    rw [h0]
    have h := runPages_stdout_replicate o r pages
      { before := o.before, lastid := none, loop := true, count := 1 }
    simpa [Emit.append] using h
  · intro v l m p hp
    simp only [verboseOut] at hp
    split at hp
    · rcases List.mem_singleton.mp hp with rfl
      rfl
    · simp at hp

/-- Witness for C9: the stderr tagging of a concrete verbose line. -/
theorem c9_witness :
    ((Chan.stderr, "=> x") : Chan × String).1 = Chan.stderr :=
  c9_stdout_user_lines_only.2 1 1 ("x") (Chan.stderr, "=> x") (by decide)

/-- C6 is a code bug: the unwrap loop at lines 148-157 never runs.  At a
retained post whose text holds a resolvable `http://t.co/ab` link, the
TypeError of line 148 is raised before any lookup or substitution, so no
text — resolved or original — is ever emitted; the swallowed error leaves
the fetch running (a further page is requested), and a whole run is
independent of the resolver: the t.co service is never consulted. -/
theorem c6_unwrap_never_runs :
    (∀ (o : Opts) (r r2 : Resolver) (pages : List (List Status)),
      displayTimeline o r pages = displayTimeline o r2 pages) ∧
    (exResolver ['a', 'b'] = some (("http://example.com/target").data) ∧
      (displayTimeline exOpts1 exResolver exPagesT).2.printed = [] ∧
      (displayTimeline exOpts1 exResolver exPagesT).2.raised = 1 ∧
      (displayTimeline exOpts1 exResolver exPagesT).2.pages = 2 ∧
      stdoutLines (displayTimeline exOpts1 exResolver exPagesT).2 = ["user", "user"]) := by
  refine ⟨?_, by decide, by decide, by decide, by decide, by decide⟩
  intro o r r2 pages
  simp only [displayTimeline]
  rw [runPages_r_indep o r r2 pages]
